import Mathlib

/-!
Verification development for the petals bloom-demo core: the Falcon
key/value head-layout converter, the CUDA-graph accelerator dispatch,
the inference session length bookkeeping and the speculative
verification loop, shallowly embedded from the repository sources.
-/

set_option linter.unusedVariables false

namespace BloomDemo

/-- Errors surfaced by the embedded operations (spec §7 taxonomy). -/
inductive ShapeError where
  | shapeMismatch
  deriving DecidableEq, Repr

/-- A rank-3 tensor `[d0, d1, d2]`, embedded as its shape together with an
indexing function into its (row-major, contiguous) storage.  Entries are
integers; only indices `r < d0, s < d1, d < d2` are meaningful. -/
@[ext]
structure Tensor3 where
  d0 : Nat
  d1 : Nat
  d2 : Nat
  data : Nat → Nat → Nat → Int

/-- `WrappedFalconBlock._expand_states` (block.py lines 375-382).
The input `state` has shape `[batch_size * num_kv_heads, seq_len, head_dim]`.
The code computes `batch_size = state.shape[0] // num_kv_heads`, then
`state.view(batch_size, num_kv_heads, 1, seq_len, head_dim)` (torch `view`
fails unless the element counts agree), `expand`s the singleton axis to
`num_key_value_groups` (a broadcast: the group index does not affect the
element read), and `reshape`s to `(batch_size * num_attention_heads, seq_len,
head_dim)` (fails unless the element counts agree).  After the flattening,
output row `r` decomposes as `b * (K*G) + kv * G + g` and reads input row
`b * K + kv`. -/
def expand_states (numKvHeads numKeyValueGroups numAttentionHeads : Nat)
    (state : Tensor3) : Except ShapeError Tensor3 :=
  let batchSize := state.d0 / numKvHeads
  if state.d0 * (state.d1 * state.d2) =
      batchSize * numKvHeads * 1 * (state.d1 * state.d2) then
    if batchSize * numKvHeads * numKeyValueGroups * (state.d1 * state.d2) =
        batchSize * numAttentionHeads * (state.d1 * state.d2) then
      .ok { d0 := batchSize * numAttentionHeads
            d1 := state.d1
            d2 := state.d2
            data := fun r s d =>
              state.data
                ((r / (numKvHeads * numKeyValueGroups)) * numKvHeads
                  + (r % (numKvHeads * numKeyValueGroups)) / numKeyValueGroups)
                s d }
    else .error .shapeMismatch
  else .error .shapeMismatch

/-- `WrappedFalconBlock._collapse_states` (block.py lines 384-391).
The input `state` has shape `[batch_size * num_attention_heads, seq_len,
head_dim]`.  The code computes `batch_size = state.shape[0] //
num_attention_heads`, views to `(batch_size, num_kv_heads,
num_key_value_groups, seq_len, head_dim)` (fails unless element counts
agree), selects group member `0` with `state[:, :, 0]`, and views the result
to `(batch_size * num_kv_heads, seq_len, head_dim)` (this view is always
count-compatible).  Output row `r = b * K + kv` reads input row
`b * (K*G) + kv * G + 0`. -/
def collapse_states (numKvHeads numKeyValueGroups numAttentionHeads : Nat)
    (state : Tensor3) : Except ShapeError Tensor3 :=
  let batchSize := state.d0 / numAttentionHeads
  if state.d0 * (state.d1 * state.d2) =
      batchSize * numKvHeads * numKeyValueGroups * (state.d1 * state.d2) then
    .ok { d0 := batchSize * numKvHeads
          d1 := state.d1
          d2 := state.d2
          data := fun r s d =>
            state.data
              ((r / numKvHeads) * (numKvHeads * numKeyValueGroups)
                + (r % numKvHeads) * numKeyValueGroups)
              s d }
  else .error .shapeMismatch

/-- Row-index bookkeeping behind the expand/collapse round trip: sending row
`r` through the collapse decomposition `b*K + kv ↦ b*(K*G) + kv*G` and then
through the expand decomposition `b*(K*G) + kv*G + g ↦ b*K + kv` is the
identity. -/
lemma row_index_roundtrip (K G r : Nat) (hK : 0 < K) (hG : 0 < G) :
    (((r / K) * (K * G) + (r % K) * G) / (K * G)) * K
      + ((r / K) * (K * G) + (r % K) * G) % (K * G) / G = r := by
  have hKG : 0 < K * G := Nat.mul_pos hK hG
  have hlt : (r % K) * G < K * G :=
    Nat.mul_lt_mul_of_lt_of_le (Nat.mod_lt r hK) (le_refl G) hG
  rw [mul_comm (r / K) (K * G), Nat.mul_add_div hKG, Nat.mul_add_mod,
    Nat.div_eq_of_lt hlt, Nat.mod_eq_of_lt hlt, Nat.add_zero,
    Nat.mul_div_cancel _ hG, Nat.div_add_mod']

/-- C1: for every collapsed key/value state tensor whose first dimension is
`batch_size * num_kv_heads`, expanding it to the per-query-head layout and
collapsing it back returns a tensor bit-identical to the original:
`_collapse_states(_expand_states(state)) == state`, since collapse selects
the group member at position 0 of a uniform broadcast.  (`num_attention_heads
= num_kv_heads * num_key_value_groups`, as in the Falcon configuration.) -/
theorem c1_expand_collapse_roundtrip (K G : Nat) (state : Tensor3)
    (hK : 0 < K) (hG : 0 < G) (hdvd : K ∣ state.d0) :
    (expand_states K G (K * G) state).bind (collapse_states K G (K * G))
      = .ok state := by
  have hKG : 0 < K * G := Nat.mul_pos hK hG
  have hback : state.d0 / K * K = state.d0 := Nat.div_mul_cancel hdvd
  simp only [expand_states, collapse_states]
  split_ifs with h1 h2
  · have hcan : state.d0 / K * (K * G) / (K * G) = state.d0 / K :=
      Nat.mul_div_left _ hKG
    simp only [collapse_states, Except.bind]
    split_ifs with h3
    · refine congrArg Except.ok (Tensor3.ext ?_ rfl rfl ?_)
      · show state.d0 / K * (K * G) / (K * G) * K = state.d0
        rw [hcan]; exact hback
      · funext r s d
        show state.data ((((r / K) * (K * G) + (r % K) * G) / (K * G)) * K
          + (((r / K) * (K * G) + (r % K) * G) % (K * G)) / G) s d
            = state.data r s d
        rw [row_index_roundtrip K G r hK hG]
    · exact absurd (by rw [hcan]; ring) h3
  · exact absurd (by ring) h2
  · exact absurd (by rw [mul_one, hback]) h1

/-- A concrete collapsed state tensor with 4 rows (`batch_size = 2` at
`num_kv_heads = 2`), used as a test vector. -/
def sampleState : Tensor3 :=
  { d0 := 4, d1 := 2, d2 := 1, data := fun r s d => (r * 100 + s * 10 + d : Int) }

/-- Witness for C1 at `num_kv_heads = 2`, `num_key_value_groups = 3` on a
concrete 4-row tensor. -/
theorem c1_expand_collapse_roundtrip_witness :
    (0 < 2 ∧ 0 < 3 ∧ 2 ∣ sampleState.d0) ∧
      (expand_states 2 3 (2 * 3) sampleState).bind (collapse_states 2 3 (2 * 3))
        = .ok sampleState :=
  ⟨⟨by decide, by decide, by decide⟩,
    c1_expand_collapse_roundtrip 2 3 sampleState (by decide) (by decide) (by decide)⟩

/-- A state tensor with zero sequence length: its storage holds no elements,
so every torch `view` whose target shape also has zero elements succeeds. -/
def emptySeqState : Tensor3 :=
  { d0 := 1, d1 := 0, d2 := 1, data := fun _ _ _ => 0 }

/-- A nonempty state tensor whose first dimension (3) is not divisible by the
head counts used in the divisibility tests. -/
def oddState : Tensor3 :=
  { d0 := 3, d1 := 1, d2 := 1, data := fun _ _ _ => 0 }

/-- C7 counterexample: the claim says every input whose batch dimension is
not divisible by the physical head count fails on expansion, but a tensor
with `seq_len = 0` (zero elements) passes every element-count check of
`view`/`reshape` and expansion succeeds: `emptySeqState` has first dimension
1, not divisible by `num_kv_heads = 2`, yet `_expand_states` returns a
result. -/
theorem c7_counterexample :
    (¬ (2 ∣ emptySeqState.d0)) ∧ (expand_states 2 1 2 emptySeqState).isOk = true :=
  ⟨by decide, rfl⟩

/-- C7 amended: for every input state tensor holding at least one element per
row (`seq_len > 0` and `head_dim > 0`), a batch dimension not evenly
divisible by the physical head count on expansion (or by the logical
attention head count `num_kv_heads * num_key_value_groups` on collapse)
makes the layout conversion fail with a shape-mismatch error rather than
produce a result. -/
theorem c7_indivisible_batch_fails (K G : Nat) (state : Tensor3)
    (hK : 0 < K) (hG : 0 < G) (hd1 : 0 < state.d1) (hd2 : 0 < state.d2) :
    (¬ K ∣ state.d0 →
        expand_states K G (K * G) state = .error .shapeMismatch) ∧
      (¬ (K * G) ∣ state.d0 →
        collapse_states K G (K * G) state = .error .shapeMismatch) := by
  have hpos : 0 < state.d1 * state.d2 := Nat.mul_pos hd1 hd2
  constructor
  · intro hnd
    have hlt : state.d0 / K * K < state.d0 := by
      rcases Nat.lt_or_ge (state.d0 / K * K) state.d0 with h | h
      · exact h
      · have heq : state.d0 / K * K = state.d0 :=
          le_antisymm (Nat.div_mul_le_self _ _) h
        rw [mul_comm] at heq
        have h2 := Nat.div_add_mod state.d0 K
        rw [heq] at h2
        exact absurd (Nat.dvd_of_mod_eq_zero (by omega)) hnd
    have hne : ¬ (state.d0 * (state.d1 * state.d2)
        = state.d0 / K * K * 1 * (state.d1 * state.d2)) := by
      rw [mul_one]
      intro h
      have := Nat.eq_of_mul_eq_mul_right hpos h
      omega
    simp only [expand_states]
    rw [if_neg hne]
  · intro hnd
    have hlt : state.d0 / (K * G) * (K * G) < state.d0 := by
      rcases Nat.lt_or_ge (state.d0 / (K * G) * (K * G)) state.d0 with h | h
      · exact h
      · have heq : state.d0 / (K * G) * (K * G) = state.d0 :=
          le_antisymm (Nat.div_mul_le_self _ _) h
        rw [mul_comm] at heq
        have h2 := Nat.div_add_mod state.d0 (K * G)
        rw [heq] at h2
        exact absurd (Nat.dvd_of_mod_eq_zero (by omega)) hnd
    have hne : ¬ (state.d0 * (state.d1 * state.d2)
        = state.d0 / (K * G) * K * G * (state.d1 * state.d2)) := by
      intro h
      have h' : state.d0 = state.d0 / (K * G) * K * G :=
        Nat.eq_of_mul_eq_mul_right hpos h
      rw [Nat.mul_assoc] at h'
      omega
    simp only [collapse_states]
    rw [if_neg hne]

/-- Witness for the amended C7 at `num_kv_heads = 2`,
`num_key_value_groups = 1` on a concrete 3-row nonempty tensor. -/
theorem c7_indivisible_batch_fails_witness :
    (0 < 2 ∧ 0 < 1 ∧ 0 < oddState.d1 ∧ 0 < oddState.d2 ∧ ¬ (2 ∣ oddState.d0)
      ∧ ¬ ((2 * 1) ∣ oddState.d0)) ∧
      expand_states 2 1 (2 * 1) oddState = .error .shapeMismatch ∧
      collapse_states 2 1 (2 * 1) oddState = .error .shapeMismatch :=
  ⟨⟨by decide, by decide, by decide, by decide, by decide, by decide⟩,
    (c7_indivisible_batch_fails 2 1 oddState (by decide) (by decide) (by decide)
      (by decide)).1 (by decide),
    (c7_indivisible_batch_fails 2 1 oddState (by decide) (by decide) (by decide)
      (by decide)).2 (by decide)⟩

/-! ## Fixed-shape CUDA-graph accelerator (block.py)

Tensors passed to the accelerator are modelled as buffers: a storage
identity (`id`, standing for the device memory address) together with the
value currently held.  `copy_` overwrites the value but keeps the identity;
rebinding would change the identity. -/

/-- A device buffer: storage identity plus current contents. -/
structure Buffer (α : Type) where
  id : Nat
  val : α

/-- Observable actions of one accelerated call: a normal (warm-up) execution
of the underlying operation, the single capturing execution, binding the
input surface to a buffer, copying a value into the bound surface, and a
graph replay. -/
inductive AccelEvent where
  | warmupExec
  | captureExec
  | bindSurface (id : Nat)
  | copyIn (id : Nat)
  | replayExec
  deriving DecidableEq, Repr

/-- `_optimized_apply_rotary` (block.py lines 44-63); `_optimized_apply_qkv`
(lines 149-168) and `_optimized_apply_ln` (lines 252-272) have the same
structure.  State is the bound input surface: `none` while `self.cuda_graph
is None`.  On the first call the code binds `input_surface` to the incoming
buffers, runs the underlying operation three times on a side stream
(warm-up), then executes it once more under `torch.cuda.graph` (capture).
Every call then copies the incoming values into the bound surface
(`static_input.copy_(data)` — by value, the binding is unchanged), replays
the graph (recomputing the captured operation on the surface contents into
the static output buffers) and returns the static outputs detached. -/
def optimizedApply {α β : Type} (op : α → β) (st : Option (Buffer α))
    (input : Buffer α) : Option (Buffer α) × β × List AccelEvent :=
  match st with
  | none =>
      let surface := input
      let surface' : Buffer α := { id := surface.id, val := input.val }
      (some surface', op surface'.val,
        [.bindSurface input.id, .warmupExec, .warmupExec, .warmupExec,
          .captureExec, .copyIn surface.id, .replayExec])
  | some surface =>
      let surface' : Buffer α := { id := surface.id, val := input.val }
      (some surface', op surface'.val, [.copyIn surface.id, .replayExec])

/-- Run a sequence of accelerated calls against one accelerator instance,
collecting each call's output and event trace. -/
def runAccel {α β : Type} (op : α → β) :
    Option (Buffer α) → List (Buffer α) →
      Option (Buffer α) × List (β × List AccelEvent)
  | st, [] => (st, [])
  | st, inp :: rest =>
      let r := optimizedApply op st inp
      let rr := runAccel op r.1 rest
      (rr.1, (r.2.1, r.2.2) :: rr.2)

/-- Direct (non-accelerated) execution of the underlying operation on the
incoming buffers — the `else` branch of the dispatch sites, e.g. the plain
`apply_rotary(query, key, cos, sin)` call (block.py lines 28-29, 94). -/
def directApply {α β : Type} (op : α → β) (input : Buffer α) : β :=
  op input.val

/-- The dispatch shared by the three accelerated operation sites:
`if <seq_len> == 1 and torch.is_inference_mode_enabled():` take the
captured-graph path, `else` execute directly (no accelerator state touched,
no events). -/
def forwardDispatch {α β : Type} (op : α → β) (seqLen : Nat)
    (inferenceMode : Bool) (st : Option (Buffer α)) (input : Buffer α) :
    Option (Buffer α) × β × List AccelEvent :=
  if seqLen == 1 && inferenceMode then
    optimizedApply op st input
  else
    (st, directApply op input, [])

/-- `OptimizedFalconRotaryEmbedding.forward` (block.py lines 88-94): applies
rotary embeddings, dispatching on `seq_len == 1 and
torch.is_inference_mode_enabled()`. -/
def rotaryEmbeddingForward {α β : Type} (applyRot : α → β) (seqLen : Nat)
    (inferenceMode : Bool) (st : Option (Buffer α)) (input : Buffer α) :
    Option (Buffer α) × β × List AccelEvent :=
  forwardDispatch applyRot seqLen inferenceMode st input

/-- The fused-QKV dispatch in `OptimizedFalconAttention.forward` (block.py
lines 183-188): `hidden_states.size(1) == 1 and
torch.is_inference_mode_enabled()`. -/
def attentionQkvForward {α β : Type} (applyQkv : α → β) (seqLen : Nat)
    (inferenceMode : Bool) (st : Option (Buffer α)) (input : Buffer α) :
    Option (Buffer α) × β × List AccelEvent :=
  forwardDispatch applyQkv seqLen inferenceMode st input

/-- The pre-attention layer-norm dispatch in
`OptimizedFalconDecoderLayer.forward` (block.py lines 286-290). -/
def decoderLayerLnForward {α β : Type} (applyLn : α → β) (seqLen : Nat)
    (inferenceMode : Bool) (st : Option (Buffer α)) (input : Buffer α) :
    Option (Buffer α) × β × List AccelEvent :=
  forwardDispatch applyLn seqLen inferenceMode st input

/-- Whether a call's event trace engaged the captured graph (a capture or a
replay happened). -/
def graphEngaged (events : List AccelEvent) : Bool :=
  events.any fun e => e == .captureExec || e == .replayExec

/-- C3: the captured-graph path of each accelerated operation site (rotary
application, fused QKV, pre-attention layer norm) is entered if and only if
the incoming sequence length is exactly 1 and inference mode is active; any
invocation with another sequence length never triggers capture or replay and
executes directly, leaving the accelerator state untouched. -/
theorem c3_graph_path_iff_single_token_inference {α β : Type} (op : α → β)
    (seqLen : Nat) (inferenceMode : Bool) (st : Option (Buffer α))
    (input : Buffer α) :
    (graphEngaged (rotaryEmbeddingForward op seqLen inferenceMode st input).2.2
        = true ↔ seqLen = 1 ∧ inferenceMode = true)
      ∧ (graphEngaged (attentionQkvForward op seqLen inferenceMode st input).2.2
        = true ↔ seqLen = 1 ∧ inferenceMode = true)
      ∧ (graphEngaged (decoderLayerLnForward op seqLen inferenceMode st input).2.2
        = true ↔ seqLen = 1 ∧ inferenceMode = true)
      ∧ (seqLen ≠ 1 →
          rotaryEmbeddingForward op seqLen inferenceMode st input
              = (st, directApply op input, [])
            ∧ attentionQkvForward op seqLen inferenceMode st input
              = (st, directApply op input, [])
            ∧ decoderLayerLnForward op seqLen inferenceMode st input
              = (st, directApply op input, [])) := by
  by_cases h : seqLen = 1 <;> cases inferenceMode <;> cases st <;>
    simp [rotaryEmbeddingForward, attentionQkvForward, decoderLayerLnForward,
      forwardDispatch, optimizedApply, graphEngaged, directApply, h]

/-- Witness for C3 at sequence length 2 (inference mode on): direct
execution, no events, state untouched. -/
theorem c3_graph_path_witness :
    (2 ≠ 1) ∧
      rotaryEmbeddingForward (fun n => n + 1) 2 true none ⟨0, (5 : Nat)⟩
        = (none, directApply (fun n => n + 1) ⟨0, (5 : Nat)⟩, []) :=
  ⟨by decide,
    ((c3_graph_path_iff_single_token_inference (fun n => n + 1) 2 true none
      ⟨0, (5 : Nat)⟩).2.2.2 (by decide)).1⟩

/-- Helper: outputs of a call sequence starting from an already-captured
accelerator: every call copies in by value, replays, and returns the
operation applied to its own input. -/
lemma runAccel_captured_outputs {α β : Type} (op : α → β) (sid : Nat)
    (v : α) (bs : List (Buffer α)) :
    (runAccel op (some ⟨sid, v⟩) bs).2
      = bs.map fun b => (op b.val, [AccelEvent.copyIn sid, .replayExec]) := by
  induction bs generalizing v with
  | nil => simp [runAccel]
  | cons b rest ih => simp [runAccel, optimizedApply, ih]

/-- Helper: the bound surface identity survives any call sequence untouched
(only its contents change). -/
lemma runAccel_captured_state {α β : Type} (op : α → β) (sid : Nat)
    (v : α) (bs : List (Buffer α)) :
    ∃ v', (runAccel op (some ⟨sid, v⟩) bs).1 = some ⟨sid, v'⟩ := by
  induction bs generalizing v with
  | nil => exact ⟨v, rfl⟩
  | cons b rest ih => simpa [runAccel, optimizedApply] using ih b.val

/-- C4: per accelerator instance, the first call executes the operation
normally exactly three times (warm-up), then performs exactly one capturing
execution binding the input surface to the buffers used; every later call
copies the new inputs by value into the bound surface (whose identity is
never rebound), replays the captured graph, and returns the operation's
value on its own input. -/
theorem c4_accelerator_lifecycle {α β : Type} (op : α → β) (first : Buffer α)
    (rest : List (Buffer α)) :
    (runAccel op none (first :: rest)).2
        = (op first.val,
            [AccelEvent.bindSurface first.id, .warmupExec, .warmupExec,
              .warmupExec, .captureExec, .copyIn first.id, .replayExec])
          :: (rest.map fun b => (op b.val, [AccelEvent.copyIn first.id, .replayExec]))
      ∧ ∃ v, (runAccel op none (first :: rest)).1 = some ⟨first.id, v⟩ := by
  constructor
  · simp [runAccel, optimizedApply, runAccel_captured_outputs]
  · simpa [runAccel, optimizedApply] using
      runAccel_captured_state op first.id first.val rest

/-- C8: at an accelerated site invoked with sequence length 1 in inference
mode, the outputs of two successive invocations through the captured-graph
path equal the direct, non-accelerated execution of the same operation on
the same inputs (exactly, hence within any tolerance). -/
theorem c8_replay_matches_direct {α β : Type} (op : α → β)
    (st : Option (Buffer α)) (i1 i2 : Buffer α) :
    (rotaryEmbeddingForward op 1 true st i1).2.1 = directApply op i1
      ∧ (rotaryEmbeddingForward op 1 true
          (rotaryEmbeddingForward op 1 true st i1).1 i2).2.1
        = directApply op i2 := by
  cases st <;>
    simp [rotaryEmbeddingForward, forwardDispatch, optimizedApply, directApply]

/-! ## Speculative verification loop
(test_speculative_generation.py, `test_speculative_greedy_generation`) -/

/-- The comparison loop (test lines 93-101): `for i in range(batch_size)`,
compare `new_tokens[:, i]` with `torch.argmax(logits[:,
generated_ids.shape[1] + i - 1, :])`; increment `match_length` on equality
and break at the first mismatch.  `rem` is the number of iterations left,
`i` the current index. -/
def matchLengthAux (newTokens argmaxAt : Nat → Nat) (genLen : Nat) :
    Nat → Nat → Nat
  | 0, _ => 0
  | rem + 1, i =>
      if newTokens i = argmaxAt (genLen + i - 1) then
        matchLengthAux newTokens argmaxAt genLen rem (i + 1) + 1
      else 0

/-- `match_length` as computed by the test for one verification round with
`batchSize` proposed tokens when the accepted sequence has length `genLen`. -/
def matchLength (batchSize genLen : Nat) (newTokens argmaxAt : Nat → Nat) :
    Nat :=
  matchLengthAux newTokens argmaxAt genLen batchSize 0

lemma matchLengthAux_le (nt am : Nat → Nat) (g : Nat) :
    ∀ rem i, matchLengthAux nt am g rem i ≤ rem := by
  intro rem
  induction rem with
  | zero => intro i; simp [matchLengthAux]
  | succ r ih =>
      intro i
      simp only [matchLengthAux]
      split_ifs
      · exact Nat.succ_le_succ (ih (i + 1))
      · exact Nat.zero_le _

lemma matchLengthAux_matches (nt am : Nat → Nat) (g : Nat) :
    ∀ rem i j, j < matchLengthAux nt am g rem i →
      nt (i + j) = am (g + (i + j) - 1) := by
  intro rem
  induction rem with
  | zero => intro i j hj; simp [matchLengthAux] at hj
  | succ r ih =>
      intro i j hj
      simp only [matchLengthAux] at hj
      split_ifs at hj with hcmp
      · cases j with
        | zero => simpa using hcmp
        | succ j' =>
            have := ih (i + 1) j' (by omega)
            have harg : i + 1 + j' = i + (j' + 1) := by omega
            rw [harg] at this
            exact this
      · omega

lemma matchLengthAux_greatest (nt am : Nat → Nat) (g : Nat) :
    ∀ rem i n, n ≤ rem → (∀ j < n, nt (i + j) = am (g + (i + j) - 1)) →
      n ≤ matchLengthAux nt am g rem i := by
  intro rem
  induction rem with
  | zero => intro i n hn _; omega
  | succ r ih =>
      intro i n hn hall
      cases n with
      | zero => exact Nat.zero_le _
      | succ n' =>
          have h0 : nt i = am (g + i - 1) := by
            have := hall 0 (by omega)
            simpa using this
          simp only [matchLengthAux, if_pos h0]
          have : n' ≤ matchLengthAux nt am g r (i + 1) := by
            refine ih (i + 1) n' (by omega) ?_
            intro j hj
            have := hall (j + 1) (by omega)
            have harg : i + (j + 1) = i + 1 + j := by omega
            rw [harg] at this
            exact this
          omega

/-- C2: in every verification round with `batchSize` proposed tokens,
`match_length` equals the length of the longest common prefix of the
proposals `t[i] = newTokens i` and the authoritative arg-max predictions
`p[i] = argmaxAt (genLen + i - 1)`: the comparison proceeds in index order
and stops at the first mismatch, so the result is the greatest `n ≤
batchSize` such that the first `n` proposals all agree with the
predictions. -/
theorem c2_match_length_is_lcp (batchSize genLen : Nat)
    (newTokens argmaxAt : Nat → Nat) :
    (matchLength batchSize genLen newTokens argmaxAt ≤ batchSize
        ∧ ∀ i < matchLength batchSize genLen newTokens argmaxAt,
            newTokens i = argmaxAt (genLen + i - 1))
      ∧ ∀ n ≤ batchSize, (∀ i < n, newTokens i = argmaxAt (genLen + i - 1)) →
          n ≤ matchLength batchSize genLen newTokens argmaxAt := by
  refine ⟨⟨matchLengthAux_le _ _ _ _ _, ?_⟩, ?_⟩
  · intro i hi
    have := matchLengthAux_matches newTokens argmaxAt genLen batchSize 0 i hi
    simpa using this
  · intro n hn hall
    refine matchLengthAux_greatest newTokens argmaxAt genLen batchSize 0 n hn ?_
    intro j hj
    simpa using hall j hj

/-- The spec's example proposals `t = [5,5,3,9,2]`, as a token-per-index
function. -/
def proposedExample : Nat → Nat := fun i => [5, 5, 3, 9, 2].getD i 0

/-- The spec's example authoritative arg-max predictions `p = [5,5,5,9,2]`,
laid out so that the prediction for proposal `i` sits at logits position
`genLen + i - 1` with `genLen = 3`. -/
def predictedExample : Nat → Nat := fun pos => [5, 5, 5, 9, 2].getD (pos - 2) 0

/-- Witness for C2 on the spec's example (`genLen = 3`, `batchSize = 5`):
the common prefix of length 2 is accepted. -/
theorem c2_match_length_witness :
    2 ≤ 5 ∧ 2 ≤ matchLength 5 3 proposedExample predictedExample :=
  ⟨by decide,
    (c2_match_length_is_lcp 5 3 proposedExample predictedExample).2 2
      (by decide) (by decide)⟩

/-- A submission to the authoritative model: the token sequence passed to
`model(...)` and the `start_from_position` keyword it is called with. -/
structure SubmitCall where
  tokens : List Nat
  startFromPosition : Nat
  deriving DecidableEq, Repr

/-- Outcome of one round of the speculative loop body: the call made to the
authoritative model, the computed `match_length`, the accepted sequence
after the round, and whether the `while` loop continues (`False` encodes the
`break`). -/
structure RoundResult where
  submitted : SubmitCall
  matchedLength : Nat
  generatedAfter : List Nat
  continueLoop : Bool
  deriving DecidableEq, Repr

/-- One iteration of the `while` body of `test_speculative_greedy_generation`
(test lines 82-108).  `proposer` abstracts `model2.generate(...)[:,
-batch_size:]` together with the random corruption; `authorityArgmax s p`
abstracts `torch.argmax(logits[:, p, :])` for the logits returned by the
submission `s`.  The code concatenates `generated_ids` with the proposed
tokens, calls the authoritative model with `start_from_position=1` (a
constant), counts the matching head with the comparison loop, and either
appends the accepted head (`match_length > 0`) or `break`s. -/
def speculativeRound (proposer : List Nat → List Nat)
    (authorityArgmax : SubmitCall → Nat → Nat) (generated : List Nat) :
    RoundResult :=
  let newTokens := proposer generated
  let submitted : SubmitCall :=
    { tokens := generated ++ newTokens, startFromPosition := 1 }
  let ml := matchLength newTokens.length generated.length
    (fun i => newTokens.getD i 0) (authorityArgmax submitted)
  if ml > 0 then
    { submitted := submitted, matchedLength := ml,
      generatedAfter := generated ++ newTokens.take ml, continueLoop := true }
  else
    { submitted := submitted, matchedLength := ml,
      generatedAfter := generated, continueLoop := false }

/-- The `while generated_ids.shape[1] < max_new_tokens + inputs.shape[1]`
loop of the test (lines 82-108), with explicit fuel for termination.  On a
zero-match round the body `break`s and the loop returns the sequence as it
stands. -/
def speculativeLoop (proposer : List Nat → List Nat)
    (authorityArgmax : SubmitCall → Nat → Nat) (maxTotalLen : Nat) :
    Nat → List Nat → List Nat
  | 0, generated => generated
  | fuel + 1, generated =>
      if generated.length < maxTotalLen then
        let r := speculativeRound proposer authorityArgmax generated
        if r.continueLoop then
          speculativeLoop proposer authorityArgmax maxTotalLen fuel
            r.generatedAfter
        else r.generatedAfter
      else generated

/-- A concrete accepted sequence of length 7 (the tokenized prompt). -/
def sevenTokens : List Nat := [10, 11, 12, 13, 14, 15, 16]

/-- C5 counterexample: the claim says each round submits with
`startFromPosition` equal to the accepted-sequence length at the start of
the round, but the code always passes `start_from_position=1`: with an
accepted sequence of length 7 the submitted position is 1, not 7. -/
theorem c5_counterexample :
    (speculativeRound (fun _ => [1, 2]) (fun _ _ => 0)
        sevenTokens).submitted.startFromPosition
      ≠ sevenTokens.length := by decide

/-- C5 amended: in every speculative verification round, the concatenation
of the already-accepted sequence and the proposed tokens is submitted to the
authoritative model with `startFromPosition` equal to the constant 1,
regardless of the accepted-sequence length. -/
theorem c5_submission_uses_position_one (proposer : List Nat → List Nat)
    (authorityArgmax : SubmitCall → Nat → Nat) (generated : List Nat) :
    (speculativeRound proposer authorityArgmax generated).submitted
      = { tokens := generated ++ proposer generated
          startFromPosition := 1 } := by
  simp only [speculativeRound]
  split_ifs <;> rfl

/-- A proposer whose single proposed token never matches the authority
below. -/
def stubbornProposer : List Nat → List Nat := fun _ => [5]

/-- An authority whose arg-max prediction is 999 at every position. -/
def disagreeingAuthority : SubmitCall → Nat → Nat := fun _ _ => 999

/-- C6 counterexample: the claim says a round with verified prefix length 0
still extends the generated sequence by at least one token (fallback
single-token decoding) before the next round or termination; but the code
`break`s: with a proposer the authority never agrees with, the round leaves
the sequence untouched, ends the loop, and the whole loop yields the input
sequence unchanged — no token is ever added. -/
theorem c6_counterexample :
    (speculativeRound stubbornProposer disagreeingAuthority [1]).matchedLength = 0
      ∧ (speculativeRound stubbornProposer disagreeingAuthority [1]).generatedAfter
        = [1]
      ∧ (speculativeRound stubbornProposer disagreeingAuthority [1]).continueLoop
        = false
      ∧ speculativeLoop stubbornProposer disagreeingAuthority 50 10 [1] = [1] := by
  decide

/-- C6 amended: a zero-match round is not an error (the loop returns
normally), but it makes no forward progress: the code `break`s out of the
loop, leaving the accepted sequence exactly as it was — there is no fallback
to single-token authoritative decoding. -/
theorem c6_zero_match_breaks (proposer : List Nat → List Nat)
    (authorityArgmax : SubmitCall → Nat → Nat) (generated : List Nat)
    (h : (speculativeRound proposer authorityArgmax generated).matchedLength
      = 0) :
    (speculativeRound proposer authorityArgmax generated).generatedAfter
        = generated
      ∧ (speculativeRound proposer authorityArgmax generated).continueLoop
        = false := by
  simp only [speculativeRound] at h ⊢
  split_ifs at h ⊢ with hpos
  · simp only [] at h
    omega
  · exact ⟨rfl, rfl⟩

/-- Witness for the amended C6 at a concrete zero-match round. -/
theorem c6_zero_match_breaks_witness :
    ((speculativeRound stubbornProposer disagreeingAuthority [1]).matchedLength
        = 0)
      ∧ (speculativeRound stubbornProposer disagreeingAuthority
          [1]).generatedAfter = [1]
      ∧ (speculativeRound stubbornProposer disagreeingAuthority
          [1]).continueLoop = false :=
  ⟨by decide,
    (c6_zero_match_breaks stubbornProposer disagreeingAuthority [1]
      (by decide)).1,
    (c6_zero_match_breaks stubbornProposer disagreeingAuthority [1]
      (by decide)).2⟩

/-! ## Inference session length bookkeeping -/

/-- Session-level error: the step would exceed the declared maximum length
(surfaced as `ValueError("Maximum length exceeded")` in
test_block_exact_match.py lines 36-38). -/
inductive StepError where
  | maximumLengthExceeded
  deriving DecidableEq, Repr

/-- Modelled from the spec: the `InferenceSession` data (spec §3, §4.4) —
`maxLength`, `currentLength`, and one cache length per layer — because the
session implementation itself is not among the provided sources (only its
tests and callers are). -/
structure SessionState where
  maxLength : Nat
  currentLength : Nat
  layerLengths : List Nat
  deriving DecidableEq, Repr

/-- Modelled from the spec: `openSession(layerCount, maxLength)` (spec §6)
creates one empty per-layer cache per layer. -/
def openSession (layerCount maxLength : Nat) : SessionState :=
  { maxLength := maxLength, currentLength := 0,
    layerLengths := List.replicate layerCount 0 }

/-- Modelled from the spec: `step` (spec §4.4) validates `currentLength +
len(tokenBatch) ≤ maxLength` before the first extension; violation fails
with `MaximumLengthExceeded` and mutates nothing (all-or-nothing across
layers); otherwise every layer cache is extended by the batch length. -/
def SessionState.step (s : SessionState) (tokenBatchLen : Nat) :
    Except StepError SessionState :=
  if s.currentLength + tokenBatchLen ≤ s.maxLength then
    .ok { maxLength := s.maxLength
          currentLength := s.currentLength + tokenBatchLen
          layerLengths := s.layerLengths.map (· + tokenBatchLen) }
  else .error .maximumLengthExceeded

/-- C9: a session opened with `maxLength = 4`, stepped with 1 token three
times, reaches length 3 in every layer cache; a fourth step with 2 tokens
fails with `MaximumLengthExceeded`, leaving every layer cache at 3 (the
failing step mutates nothing); a subsequent step with exactly 1 token
succeeds, reaching length 4. -/
theorem c9_max_length_scenario (layerCount : Nat) :
    ∃ s3,
      ((((openSession layerCount 4).step 1).bind (fun s => s.step 1)).bind
          (fun s => s.step 1)) = .ok s3
        ∧ s3.currentLength = 3
        ∧ s3.layerLengths = List.replicate layerCount 3
        ∧ s3.step 2 = .error .maximumLengthExceeded
        ∧ ∃ s4, s3.step 1 = .ok s4 ∧ s4.currentLength = 4
            ∧ s4.layerLengths = List.replicate layerCount 4 := by
  refine ⟨⟨4, 3, List.replicate layerCount 3⟩, ?_, rfl, rfl, ?_,
    ⟨4, 4, List.replicate layerCount 4⟩, ?_, rfl, rfl⟩
  · simp [openSession, SessionState.step, Except.bind, List.map_replicate]
  · simp [SessionState.step]
  · simp [SessionState.step, List.map_replicate]

/-! ## Remote generation session handling (remote_generation.py) -/

/-- The context manager `generate` runs under: either a freshly opened
inference session with the given `max_length`, or `contextlib.nullcontext`
around the supplied session (which is not entered or exited and is used
as-is). -/
inductive GenSessionContext where
  | newSession (maxLength : Nat)
  | nullcontextAround (sessionId : Nat)
  deriving DecidableEq, Repr

/-- `RemoteGenerationMixin.generate` (remote_generation.py lines 47-53):
`if session is None: self.inference_session(max_length=2048)` — the 2048 is
hard-coded, independent of the requested generation length — `else:
contextlib.nullcontext(session)`. -/
def generateSessionContext (session : Option Nat) (requestedLength : Nat) :
    GenSessionContext :=
  match session with
  | none => .newSession 2048
  | some s => .nullcontextAround s

/-- C10: `generate` with no session opens a new inference session with
`max_length` fixed at 2048 regardless of the requested generation length;
with a session supplied it wraps it in a null context (used as-is, never
entered or exited). -/
theorem c10_generate_session_handling :
    (∀ requestedLength,
        generateSessionContext none requestedLength
          = GenSessionContext.newSession 2048)
      ∧ (∀ sessionId requestedLength,
        generateSessionContext (some sessionId) requestedLength
          = GenSessionContext.nullcontextAround sessionId) :=
  ⟨fun _ => rfl, fun _ _ => rfl⟩

end BloomDemo
